import Mathlib

/-!
Verification of the `github.com/shipengqi/errors` package: a shallow
embedding of the error-chain node types and constructors (errors.go) and of
the code registry (code.go), together with theorems settling the behavioral
claims about chain traversal, rendering, registration and unregistration.
-/

namespace ShipengqiErrors

/-- Error chain node, embedding the concrete error types of errors.go:
`fundamental` (message + captured stack, no cause), `withStack` (cause +
captured stack), `withMessage` (cause + message), `withCode` (cause + integer
code).  `plain msg` models a non-nil error value from outside the package
(for example one built by the standard library): it has only an `Error()`
method and implements neither the `causer` nor the `icoder` interface.
A captured stack is carried as the text its renderer writes under the
extended (`%+v`) format; the capture machinery itself (stack.go) resolves
frames only at format time, and that rendered text is all the present
claims depend on. -/
inductive Err : Type where
  | fundamental (msg : String) (stackText : String)
  | withStack (cause : Err) (stackText : String)
  | withMessage (cause : Err) (msg : String)
  | withCode (cause : Err) (code : Int)
  | plain (msg : String)
deriving DecidableEq

/-- `Error()` of each node (plain, non-extended rendering), from errors.go:
`fundamental.Error` returns the message; `withStack.Error` is the promoted
`Error` of the embedded cause; `withMessage.Error` is
`w.msg + ": " + w.cause.Error()`; `withCode.Error` is
`fmt.Sprintf("code: %d, %s", w.code, w.cause.Error())`. -/
def Err.error : Err → String
  | .fundamental msg _ => msg
  | .withStack c _ => c.error
  | .withMessage c msg => msg ++ ": " ++ c.error
  | .withCode c code => "code: " ++ toString code ++ ", " ++ c.error
  | .plain msg => msg

/-- The text each node's `Format` writes for the `%+v` verb, from errors.go:
`fundamental` writes its message then its stack render; `withStack` writes
`fmt.Fprintf("%+v", w.Cause())` then its stack render; `withMessage` writes
`fmt.Fprintf("%+v\n", w.Cause())` then its own message; `withCode` writes
`fmt.Fprintf("code: %d, %+v\n", w.code, w.Cause())`.  An outside error
without a `Format` method prints as its `Error()` text. -/
def Err.extended : Err → String
  | .fundamental msg st => msg ++ st
  | .withStack c st => c.extended ++ st
  | .withMessage c msg => c.extended ++ "\n" ++ msg
  | .withCode c code => "code: " ++ toString code ++ ", " ++ c.extended ++ "\n"
  | .plain msg => msg

/-- The `causer` capability: `Cause()` as implemented by `withStack`,
`withMessage` and `withCode`; `fundamental` and outside errors do not
implement it. -/
def Err.causeAccessor : Err → Option Err
  | .withStack c _ => some c
  | .withMessage c _ => some c
  | .withCode c _ => some c
  | .fundamental _ _ => none
  | .plain _ => none

/-- The Go 1.13 `Unwrap()` accessor as implemented by `withStack`,
`withMessage` and `withCode` in errors.go; the other nodes do not
implement it. -/
def Err.unwrapAccessor : Err → Option Err
  | .withStack c _ => some c
  | .withMessage c _ => some c
  | .withCode c _ => some c
  | .fundamental _ _ => none
  | .plain _ => none

/-- The `icoder` capability: `Code()` is implemented only by `withCode`.
(`withStack` embeds the `error` interface, so only `Error()` is promoted:
a `withStack` node never satisfies an `icoder` type assertion, whatever it
wraps.) -/
def Err.codeAccessor : Err → Option Int
  | .withCode _ code => some code
  | _ => none

/-- The nodes visited by the recursive traversal of `IsCode`, outermost
first: each node that implements `causer` is followed by the nodes of its
cause, and a node without the capability ends the list. -/
def Err.chain : Err → List Err
  | .withStack c st => .withStack c st :: c.chain
  | .withMessage c msg => .withMessage c msg :: c.chain
  | .withCode c code => .withCode c code :: c.chain
  | .fundamental msg st => [.fundamental msg st]
  | .plain msg => [.plain msg]

/-- The loop of `Cause` in errors.go restricted to a non-nil start: repeatedly
replace the error by `Cause()` while the `causer` assertion succeeds.  The
causes stored by this package's nodes are the wrapped errors themselves, so
the loop stops exactly at the first node without the capability. -/
def Err.rootCause : Err → Err
  | .withStack c _ => c.rootCause
  | .withMessage c _ => c.rootCause
  | .withCode c _ => c.rootCause
  | .fundamental msg st => .fundamental msg st
  | .plain msg => .plain msg

/-- `Cause(err)` from errors.go: nil returns nil without further
investigation, otherwise the loop of `Err.rootCause` runs. -/
def Cause : Option Err → Option Err
  | none => none
  | some e => some e.rootCause

/-- `New` from errors.go: a `fundamental` with the supplied message and the
stack captured at the call. -/
def New (message : String) (st : String) : Option Err :=
  some (.fundamental message st)

/-- `Errorf` from errors.go; the `fmt.Sprintf` result is passed in as the
already-formatted message string. -/
def Errorf (formatted : String) (st : String) : Option Err :=
  some (.fundamental formatted st)

/-- `WithStack` from errors.go: nil in, nil out; otherwise a `withStack`
node over the cause. -/
def WithStack (err : Option Err) (st : String) : Option Err :=
  match err with
  | none => none
  | some e => some (.withStack e st)

/-- `Wrap` from errors.go: nil in, nil out; otherwise a `withMessage` over
the cause, further wrapped in a `withStack` capturing the stack. -/
def Wrap (err : Option Err) (message : String) (st : String) : Option Err :=
  match err with
  | none => none
  | some e => some (.withStack (.withMessage e message) st)

/-- `Wrapf` from errors.go, with the `fmt.Sprintf` result passed in as the
formatted message. -/
def Wrapf (err : Option Err) (formatted : String) (st : String) : Option Err :=
  match err with
  | none => none
  | some e => some (.withStack (.withMessage e formatted) st)

/-- `WithMessage` from errors.go: nil in, nil out; otherwise a bare
`withMessage` node. -/
def WithMessage (err : Option Err) (message : String) : Option Err :=
  match err with
  | none => none
  | some e => some (.withMessage e message)

/-- `WithMessagef` from errors.go, with the `fmt.Sprintf` result passed in
as the formatted message. -/
def WithMessagef (err : Option Err) (formatted : String) : Option Err :=
  match err with
  | none => none
  | some e => some (.withMessage e formatted)

/-- `WithCode` from errors.go: nil in, nil out; otherwise a bare `withCode`
node. -/
def WithCode (err : Option Err) (code : Int) : Option Err :=
  match err with
  | none => none
  | some e => some (.withCode e code)

/-- `WithCodef` from errors.go: nil in, nil out; otherwise a `withCode`
whose cause is a `withMessage` holding the formatted message over the
original error. -/
def WithCodef (err : Option Err) (code : Int) (formatted : String) : Option Err :=
  match err with
  | none => none
  | some e => some (.withCode (.withMessage e formatted) code)

/-- `WrapCode` from errors.go: nil in, nil out; otherwise a `withCode` over
the cause, wrapped in a `withStack` capturing the stack. -/
def WrapCode (err : Option Err) (code : Int) (st : String) : Option Err :=
  match err with
  | none => none
  | some e => some (.withStack (.withCode e code) st)

/-- `WrapCodef` from errors.go: nil in, nil out; otherwise a `withCode`
over a `withMessage` holding the formatted message, wrapped in a
`withStack` capturing the stack. -/
def WrapCodef (err : Option Err) (code : Int) (formatted : String)
    (st : String) : Option Err :=
  match err with
  | none => none
  | some e => some (.withStack (.withCode (.withMessage e formatted) code) st)

/-- The `defaultCoder` record of code.go (the package's concrete `Coder`):
numeric code, HTTP status, message, documentation reference. -/
structure Coder : Type where
  code : Int
  status : Int
  msg : String
  ref : String
deriving DecidableEq

/-- `defaultCoder.HTTPStatus`: status 0 means the default
`http.StatusInternalServerError` (500). -/
def Coder.HTTPStatus (c : Coder) : Int :=
  if c.status = 0 then 500 else c.status

/-- The sentinel `unknownCode` of code.go: code 1, status
`http.StatusInternalServerError` (500), message "Internal server error",
empty reference. -/
def unknownCode : Coder :=
  ⟨1, 500, "Internal server error", ""⟩

/-- The `_codes` map of code.go, as the total lookup function of a Go map
from int to Coder. -/
abbrev Registry := Int → Option Coder

/-- `make(map[int]Coder)`: the empty map. -/
def emptyCodes : Registry := fun _ => none

/-- Go map assignment `m[k] = c`. -/
def insertCode (r : Registry) (k : Int) (c : Coder) : Registry :=
  fun j => if j = k then some c else r j

/-- Go map `delete(m, k)`. -/
def deleteCode (r : Registry) (k : Int) : Registry :=
  fun j => if j = k then none else r j

/-- `init()` of code.go: the registry at process start holds exactly the
sentinel entry `_codes[1] = unknownCode`. -/
def initialCodes : Registry :=
  insertCode emptyCodes unknownCode.code unknownCode

/-- `Register` of code.go as a state transition on the registry.  The result
pairs the registry after the call with the panic message when the call
panicked: registering the reserved code panics with the "reserved"
diagnostic, registering an already-present code panics with the
"already registered" diagnostic, and both panics occur before the map
insertion, so the registry at a panic is the input registry. -/
def Register (r : Registry) (c : Coder) : Registry × Option String :=
  if c.code = unknownCode.code then
    (r, some ("code `" ++ toString c.code ++
      "` is reserved by `github.com/shipengqi/errors` as Unknown Code"))
  else if (r c.code).isSome then
    (r, some ("code `" ++ toString c.code ++ "` already registered"))
  else
    (insertCode r c.code c, none)

/-- `unregister` of code.go: when the coder's code is present, delete that
key; otherwise do nothing. -/
def unregister (r : Registry) (c : Coder) : Registry :=
  if (r c.code).isSome then deleteCode r c.code else r

/-- The recursion of `IsCode` in code.go on a non-nil error: if the node
satisfies `icoder` and its code matches, true; otherwise, if it satisfies
`causer`, recurse on the cause; otherwise false.  (`withCode` satisfies
both interfaces, so a non-matching `withCode` still recurses.) -/
def IsCodeErr : Err → Int → Bool
  | .withCode c k, code => k == code || IsCodeErr c code
  | .withStack c _, code => IsCodeErr c code
  | .withMessage c _, code => IsCodeErr c code
  | .fundamental _ _, _ => false
  | .plain _, _ => false

/-- `IsCode(err, code)` of code.go.  A nil error satisfies neither interface
assertion, so the answer is false. -/
def IsCode (err : Option Err) (code : Int) : Bool :=
  match err with
  | none => false
  | some e => IsCodeErr e code

/-- `ParseCoder(err)` of code.go over an explicit registry state: nil
returns nil directly; otherwise a single `icoder` type assertion is made on
`err` itself — no chain walk — and on success the code is looked up in the
registry; every remaining case returns the sentinel `unknownCode`. -/
def ParseCoder (r : Registry) (err : Option Err) : Option Coder :=
  match err with
  | none => none
  | some e =>
    match e.codeAccessor with
    | some k =>
      match r k with
      | some coder => some coder
      | none => some unknownCode
    | none => some unknownCode

/-- A sequence of `Register` calls run in order, each starting from the
registry state the previous call left behind (a panicking call leaves the
registry unchanged, whether or not the panic is recovered). -/
def registerAll (r : Registry) : List Coder → Registry
  | [] => r
  | c :: cs => registerAll (Register r c).1 cs

/-- The code of the first node on the chain, in the traversal order of
`IsCode`: the spec-side description of the chain walk that §4.3 ascribes to
`ParseCoder` (to be compared with the embedded `ParseCoder` above, which
inspects only the outermost node). -/
def firstCode : Err → Option Int
  | .withCode _ k => some k
  | .withStack c _ => firstCode c
  | .withMessage c _ => firstCode c
  | .fundamental _ _ => none
  | .plain _ => none

/-- A coder registered under code 5, used to exhibit the behavior of
`ParseCoder` on a chain whose code-bearing node is not outermost. -/
def coder5ex : Coder := ⟨5, 404, "not found", "https://docs.example.com/5"⟩

/-- The registry after successfully registering `coder5ex`. -/
def reg5ex : Registry := insertCode initialCodes 5 coder5ex

/-- A chain whose only code-bearing node (code 5) sits below a `withStack`
wrapper, as produced by `WrapCode(New("boom"), 5)`. -/
def deepCodeErr : Err := .withStack (.withCode (.fundamental "boom" "") 5) ""

/-- Claim C1 counterexample: with code 5 registered and a chain whose first
(and only) code-bearing node carries code 5 below a `withStack` wrapper,
`ParseCoder` returns the sentinel `unknownCode`, not the registered coder —
it never walks the chain; only the outermost node is given the `icoder`
type assertion. -/
theorem parseCoder_ignores_inner_code :
    firstCode deepCodeErr = some 5
    ∧ reg5ex 5 = some coder5ex
    ∧ coder5ex ≠ unknownCode
    ∧ ParseCoder reg5ex (some deepCodeErr) = some unknownCode
    ∧ ParseCoder reg5ex (some deepCodeErr) ≠ some coder5ex :=
  ⟨by decide, by decide, by decide, by decide, by decide⟩

/-- Claim C1 (amended): for a non-absent error, `ParseCoder` inspects only
the outermost node.  When that node exposes a code-accessor with code `k`
it returns the Coder registered for `k` if one is registered and the
sentinel unknown Coder otherwise; when the outermost node is any other
node (a stack wrapper, message wrapper, base node or outside error) it
returns the sentinel unknown Coder regardless of any code-bearing node
deeper in the chain; absent input returns absent. -/
theorem parseCoder_outermost_only :
    (∀ r : Registry, ParseCoder r none = none)
    ∧ (∀ (r : Registry) (e : Err) (k : Int),
        ParseCoder r (some (.withCode e k)) = some ((r k).getD unknownCode))
    ∧ (∀ (r : Registry) (e : Err) (st : String),
        ParseCoder r (some (.withStack e st)) = some unknownCode)
    ∧ (∀ (r : Registry) (e : Err) (m : String),
        ParseCoder r (some (.withMessage e m)) = some unknownCode)
    ∧ (∀ (r : Registry) (m st : String),
        ParseCoder r (some (.fundamental m st)) = some unknownCode
        ∧ ParseCoder r (some (.plain m)) = some unknownCode) := by
  refine ⟨fun _ => rfl, ?_, fun _ _ _ => rfl, fun _ _ _ => rfl,
    fun _ _ _ => ⟨rfl, rfl⟩⟩
  intro r e k
  cases h : r k <;> simp [ParseCoder, Err.codeAccessor, h]

/-- Claim C2: `IsCode(err, code)` is true iff `err` is non-absent and some
node on its chain exposes a code-accessor whose value equals `code`; in
particular both codes of a nested `WithCode(WithCode(e, 5), 6)` chain are
matched independently. -/
theorem isCode_iff_chain_code :
    (∀ code : Int, IsCode none code = false)
    ∧ (∀ (e : Err) (code : Int),
        IsCode (some e) code = true ↔ ∃ n ∈ e.chain, n.codeAccessor = some code)
    ∧ (∀ e : Err,
        IsCode (WithCode (WithCode (some e) 5) 6) 5 = true
        ∧ IsCode (WithCode (WithCode (some e) 5) 6) 6 = true) := by
  refine ⟨fun _ => rfl, ?_, ?_⟩
  · intro e code
    show IsCodeErr e code = true ↔ _
    induction e with
    | fundamental msg st => simp [IsCodeErr, Err.chain, Err.codeAccessor]
    | withStack c st ih => simpa [IsCodeErr, Err.chain, Err.codeAccessor] using ih
    | withMessage c m ih => simpa [IsCodeErr, Err.chain, Err.codeAccessor] using ih
    | withCode c k ih =>
        simp [IsCodeErr, Err.chain, Err.codeAccessor, Bool.or_eq_true,
          beq_iff_eq, ih]
    | plain msg => simp [IsCodeErr, Err.chain, Err.codeAccessor]
  · intro e
    exact ⟨by simp [WithCode, IsCode, IsCodeErr], by simp [WithCode, IsCode, IsCodeErr]⟩

/-- Claim C3: `Register` panics exactly when the coder's code is the
reserved sentinel code 1 (with the fixed "reserved" diagnostic, checked
first) or when the code is already present (with the "already registered"
diagnostic); otherwise it inserts the mapping from the code to the coder
and changes no other entry; and whenever it panics the registry is left
unchanged. -/
theorem register_code_behavior :
    ∀ (r : Registry) (c : Coder),
      ((Register r c).2.isSome = true ↔ (c.code = 1 ∨ (r c.code).isSome = true))
      ∧ (c.code = 1 →
          (Register r c).2 = some ("code `" ++ toString c.code ++
            "` is reserved by `github.com/shipengqi/errors` as Unknown Code"))
      ∧ (c.code ≠ 1 → (r c.code).isSome = true →
          (Register r c).2 = some ("code `" ++ toString c.code ++
            "` already registered"))
      ∧ (c.code ≠ 1 → r c.code = none →
          (Register r c).2 = none
          ∧ (Register r c).1 c.code = some c
          ∧ ∀ k, k ≠ c.code → (Register r c).1 k = r k)
      ∧ ((Register r c).2.isSome = true → (Register r c).1 = r) := by
  intro r c
  refine ⟨?_, ?_, ?_, ?_, ?_⟩
  · by_cases h1 : c.code = 1 <;> by_cases h2 : (r c.code).isSome = true <;>
      simp [Register, unknownCode, h1, h2]
  · intro h1
    simp [Register, unknownCode, h1]
  · intro h1 h2
    simp [Register, unknownCode, h1, h2]
  · intro h1 h2
    refine ⟨?_, ?_, ?_⟩
    · simp [Register, unknownCode, h1, h2]
    · simp [Register, unknownCode, h1, h2, insertCode]
    · intro k hk
      simp [Register, unknownCode, h1, h2, insertCode, hk]
  · intro habort
    by_cases h1 : c.code = 1
    · simp [Register, unknownCode, h1]
    · by_cases h2 : (r c.code).isSome = true
      · simp [Register, unknownCode, h1, h2]
      · simp [Register, unknownCode, h1, h2] at habort

/-- Witness for claim C3: on the initial registry, registering code 7
succeeds, maps 7 to the new coder and leaves the sentinel entry alone;
registering the sentinel code panics with the "reserved" diagnostic; and
re-registering code 7 afterwards panics with the "duplicate" diagnostic. -/
theorem register_code_behavior_witness :
    (Register initialCodes ⟨7, 200, "ok", ""⟩).2 = none
    ∧ (Register initialCodes ⟨7, 200, "ok", ""⟩).1 7 = some ⟨7, 200, "ok", ""⟩
    ∧ (Register initialCodes ⟨7, 200, "ok", ""⟩).1 1 = initialCodes 1
    ∧ (Register initialCodes unknownCode).2 = some ("code `" ++ toString (1 : Int) ++
        "` is reserved by `github.com/shipengqi/errors` as Unknown Code")
    ∧ (Register (Register initialCodes ⟨7, 200, "ok", ""⟩).1 ⟨7, 500, "dup", ""⟩).2 =
        some ("code `" ++ toString (7 : Int) ++ "` already registered") := by
  have h4 := (register_code_behavior initialCodes ⟨7, 200, "ok", ""⟩).2.2.2.1
    (by decide) (by decide)
  refine ⟨h4.1, h4.2.1, h4.2.2 1 (by decide), ?_, ?_⟩
  · exact (register_code_behavior initialCodes unknownCode).2.1 (by decide)
  · exact (register_code_behavior (Register initialCodes ⟨7, 200, "ok", ""⟩).1
      ⟨7, 500, "dup", ""⟩).2.2.1 (by decide) (by decide)

/-- Claim C4: every wrapping constructor given an absent cause returns
absent: `Wrap`, `Wrapf`, `WithMessage`, `WithMessagef`, `WithStack`,
`WithCode`, `WithCodef`, `WrapCode` and `WrapCodef` all yield `none` at
`none`, for every message, format result, code and captured stack. -/
theorem nil_cause_propagation :
    ∀ (m f st : String) (c : Int),
      Wrap none m st = none
      ∧ Wrapf none f st = none
      ∧ WithMessage none m = none
      ∧ WithMessagef none f = none
      ∧ WithStack none st = none
      ∧ WithCode none c = none
      ∧ WithCodef none c f = none
      ∧ WrapCode none c st = none
      ∧ WrapCodef none c f st = none :=
  fun _ _ _ _ => ⟨rfl, rfl, rfl, rfl, rfl, rfl, rfl, rfl, rfl⟩

/-- Claim C5: plain rendering: a base node's `Error()` is its raw message;
a stack wrapper's `Error()` is its cause's text verbatim; a message wrapper
renders the message, ": ", then the cause's text; a code wrapper renders
"code: ", the code, ", ", then the cause's text. -/
theorem plain_rendering_contract :
    ∀ (c : Err) (msg st : String) (k : Int),
      (Err.fundamental msg st).error = msg
      ∧ (Err.withStack c st).error = c.error
      ∧ (Err.withMessage c msg).error = msg ++ ": " ++ c.error
      ∧ (Err.withCode c k).error = "code: " ++ toString k ++ ", " ++ c.error :=
  fun _ _ _ _ => ⟨rfl, rfl, rfl, rfl⟩

/-- Claim C6 counterexample: for a code wrapper the extended (`%+v`) output
does not begin with the cause's extended form — the node's own
"code: N, " contribution comes first — so the extended output of
`withCode 3 (fundamental "boom")` is not the cause's extended form followed
by an appended contribution. -/
theorem withCode_extended_prefix_counterexample :
    ¬ ∃ s : String, (Err.withCode (Err.fundamental "boom" "") 3).extended
      = (Err.fundamental "boom" "").extended ++ s := by
  rintro ⟨s, h⟩
  have h2 : ("code: 3, boom\n" : String).data = ("boom" : String).data ++ s.data := by
    have h3 := congrArg String.data h
    rw [String.data_append] at h3
    exact h3
  have h4 : ('c' :: ("ode: 3, boom\n" : String).data)
      = 'b' :: (("oom" : String).data ++ s.data) := h2
  injection h4 with hc ht
  exact absurd hc (by decide)

/-- Claim C6 (amended): a stack wrapper's extended form is the cause's
extended form followed by the stack render, and a message wrapper's is the
cause's extended form, a newline, then its own message — oldest first,
newest annotation last; a code wrapper instead prepends its own
"code: N, " contribution before the cause's extended form and appends a
trailing newline, so for code wrappers the newest annotation appears
first, not last. -/
theorem extended_rendering_order :
    ∀ (c : Err) (st m : String) (k : Int),
      (Err.withStack c st).extended = c.extended ++ st
      ∧ (Err.withMessage c m).extended = c.extended ++ "\n" ++ m
      ∧ (Err.withCode c k).extended =
          ("code: " ++ toString k ++ ", ") ++ c.extended ++ "\n" :=
  fun _ _ _ _ => ⟨rfl, rfl, rfl⟩

/-- Claim C7: for every non-absent error `e` and message `m` (and whichever
stack `Wrap` captures), `Cause(Wrap(e, m))` equals `Cause(e)`: the message
and stack wrappers added by `Wrap` are unwrapped again by `Cause`, so the
ultimate cause is unchanged. -/
theorem cause_wrap_eq_cause :
    ∀ (e : Err) (m st : String), Cause (Wrap (some e) m st) = Cause (some e) :=
  fun _ _ _ => rfl

/-- One `Register` call keeps the sentinel entry: whatever branch the call
takes, the registry after it still maps code 1 to `unknownCode`. -/
lemma register_keeps_sentinel (r : Registry) (c : Coder)
    (h : r 1 = some unknownCode) : (Register r c).1 1 = some unknownCode := by
  by_cases h1 : c.code = 1
  · simp [Register, unknownCode, h1, h]
  · by_cases h2 : (r c.code).isSome = true
    · simp [Register, unknownCode, h1, h2, h]
    · have h1' : ¬((1 : Int) = c.code) := fun hh => h1 hh.symm
      simp [Register, unknownCode, h1, h2, insertCode, h1', h]

/-- Any sequence of `Register` calls keeps the sentinel entry. -/
lemma registerAll_keeps_sentinel :
    ∀ (cs : List Coder) (r : Registry), r 1 = some unknownCode →
      registerAll r cs 1 = some unknownCode
  | [], _, h => h
  | c :: cs, r, h =>
      registerAll_keeps_sentinel cs (Register r c).1 (register_keeps_sentinel r c h)

/-- Claim C8: starting from the initial registry (exactly the sentinel
entry), after every sequence of `Register` calls the registry still maps
code 1 to the sentinel `unknownCode`: the public registration path can
never replace or remove the sentinel entry. -/
theorem sentinel_entry_invariant :
    ∀ cs : List Coder, registerAll initialCodes cs 1 = some unknownCode :=
  fun cs => registerAll_keeps_sentinel cs initialCodes rfl

/-- Claim C9: on every node, the Go-1.13 `Unwrap()` accessor agrees with the
`Cause()` accessor — in particular the three wrapper nodes return the same
wrapped error from both, so standard-library unwrapping traverses the same
chain as this package's cause traversal. -/
theorem unwrap_eq_cause_accessor :
    ∀ e : Err, e.unwrapAccessor = e.causeAccessor := by
  intro e
  cases e <;> rfl

/-- Claim C10: `unregister(coder)` removes exactly the entry keyed by the
coder's code when present (the reserved sentinel code 1 included — there is
no guard), leaves every other key unchanged, and leaves the registry
entirely unchanged when the code is absent. -/
theorem unregister_frame :
    (∀ (r : Registry) (c : Coder),
      ((r c.code).isSome = true →
        unregister r c c.code = none
        ∧ ∀ k, k ≠ c.code → unregister r c k = r k)
      ∧ (r c.code = none → ∀ k, unregister r c k = r k))
    ∧ unregister initialCodes unknownCode 1 = none := by
  refine ⟨?_, by decide⟩
  intro r c
  refine ⟨?_, ?_⟩
  · intro hpresent
    refine ⟨?_, ?_⟩
    · simp [unregister, hpresent, deleteCode]
    · intro k hk
      simp [unregister, hpresent, deleteCode, hk]
  · intro habsent k
    simp [unregister, habsent]

/-- Witness for claim C10: on the initial registry, unregistering the
sentinel coder deletes the entry at code 1, and unregistering an absent
code (5) leaves the entry at code 1 unchanged. -/
theorem unregister_frame_witness :
    (initialCodes (1 : Int)).isSome = true
    ∧ unregister initialCodes unknownCode 1 = none
    ∧ initialCodes (5 : Int) = none
    ∧ unregister initialCodes ⟨5, 404, "not found", ""⟩ 1 = initialCodes 1 := by
  refine ⟨by decide, ?_, by decide, ?_⟩
  · exact ((unregister_frame.1 initialCodes unknownCode).1 (by decide)).1
  · exact (unregister_frame.1 initialCodes ⟨5, 404, "not found", ""⟩).2 (by decide) 1

end ShipengqiErrors
